import Mathlib

/-!
Verification of the x86-64 GDT module (`src/kernel/src/arch/x86_64/gdt.rs`)
of the khazraj kernel: a shallow embedding of the descriptor encoders, the
fixed-capacity descriptor table, and the activation sequence, with proofs of
the specified properties.

Machine integers (`u64`, `usize`, `u16`) are modelled as `Nat`, with an
explicit `% 2 ^ w` wherever the code performs a narrowing cast.
-/

namespace Gdt

/-! ## Bit-field primitives

The Rust code uses the `bit_field` crate: `x.get_bits(lo..hi)` extracts bits
`lo` (inclusive) to `hi` (exclusive), `x.set_bits(lo..hi, v)` replaces that
range with `v` (the crate asserts that `v` fits in `hi - lo` bits; every call
site in the source passes a fitting value, so the `% 2 ^ (hi - lo)`
truncation below is never engaged at those call sites). -/

/-- Bits `lo` (inclusive) to `hi` (exclusive) of `x`, as in `x.get_bits(lo..hi)`. -/
def getBits (x lo hi : Nat) : Nat :=
  x / 2 ^ lo % 2 ^ (hi - lo)

/-- Value `x` with bits `lo..hi` replaced by `v`, as in `x.set_bits(lo..hi, v)`. -/
def setBits (x lo hi v : Nat) : Nat :=
  x % 2 ^ lo + v % 2 ^ (hi - lo) * 2 ^ lo + x / 2 ^ hi * 2 ^ hi

/-! ## Data model

`Entry` is a transparent wrapper of a `u64`; we model the wrapped value
directly as `Nat`.  `GlobalDescriptorTable<MAX>` is an array `[Entry; MAX]`
with a length counter; we model the array as a `List Nat` whose length is
`MAX`, so `table.length` plays the role of the const-generic capacity and
the bounds check of `self.table[self.len]` is a comparison with it. -/

/-- Rust `Descriptor`: one table entry for a user segment, two for a system segment. -/
inductive Descriptor where
  | UserSegment (value : Nat)
  | SystemSegment (value_low value_high : Nat)
deriving DecidableEq, Repr

/-- Rust `GlobalDescriptorTable<MAX>`: backing array (of length `MAX`) plus
occupied length. -/
structure GlobalDescriptorTable where
  table : List Nat
  len : Nat
deriving DecidableEq, Repr

/-- Rust `GlobalDescriptorTable::empty()`: all slots zeroed, length 1 (slot 0 is
the reserved null descriptor). -/
def GlobalDescriptorTable.empty (MAX : Nat) : GlobalDescriptorTable :=
  { table := List.replicate MAX 0, len := 1 }

/-- Outcome of a (possibly aborting) table mutation: `ok` is normal
completion, `aborted` is the Rust index-out-of-bounds panic, carrying the
memory state at the instant of the abort. -/
inductive PushResult where
  | ok (g : GlobalDescriptorTable)
  | aborted (g : GlobalDescriptorTable)
deriving DecidableEq, Repr

/-- The table state held by a `PushResult` (final state on `ok`, state at
the panic on `aborted`). -/
def PushResult.state : PushResult → GlobalDescriptorTable
  | .ok g => g
  | .aborted g => g

/-- Whether the mutation completed without aborting. -/
def PushResult.isOk : PushResult → Bool
  | .ok _ => true
  | .aborted _ => false

/-- One statement pair `self.table[self.len] = Entry(v); self.len += 1;`:
the indexing is bounds-checked against the backing array's length and
panics (aborts) when out of range, leaving the state unchanged. -/
def writeEntry (g : GlobalDescriptorTable) (v : Nat) : PushResult :=
  if g.len < g.table.length then
    .ok { table := g.table.set g.len v, len := g.len + 1 }
  else
    .aborted g

/-- Rust `GlobalDescriptorTable::push`: one write for a `UserSegment`, two
consecutive writes (low quadword then high quadword) for a `SystemSegment`. -/
def GlobalDescriptorTable.push (g : GlobalDescriptorTable) :
    Descriptor → PushResult
  | .UserSegment value => writeEntry g value
  | .SystemSegment value_low value_high =>
    match writeEntry g value_low with
    | .ok g1 => writeEntry g1 value_high
    | .aborted g1 => .aborted g1

/-- Sequencing of pushes: a later push on an already-aborted construction
never runs (the panic has already terminated construction). -/
def PushResult.push : PushResult → Descriptor → PushResult
  | .ok g, d => g.push d
  | .aborted g, _ => .aborted g

/-- Rust `DescriptorTableRegister { address, size }` (the operand of `lgdt`). -/
structure DescriptorTableRegister where
  address : Nat
  size : Nat
deriving DecidableEq, Repr

/-- Rust `GlobalDescriptorTable::register()`: `address` is the backing array's
base pointer (passed in as `base`, since the numeric value of a Rust static's
address is not determined by the program text), `size` is
`(len * size_of::<Entry>() - 1) as u16` with `size_of::<Entry>() = 8`. -/
def GlobalDescriptorTable.register (g : GlobalDescriptorTable) (base : Nat) :
    DescriptorTableRegister :=
  { address := base, size := (g.len * 8 - 1) % 2 ^ 16 }

/-! ## Descriptor flags

The `bitflags!` block: each constant is a `u64` bit mask.  The presets are
built with `from_bits_truncate`, which drops bits outside the declared
flags; every OR below is an OR of declared flags, so the truncation is the
identity and the presets are plain ORs of the masks. -/

namespace DescriptorFlags

def ACCESSED : Nat := 1 <<< 40

def WRITABLE : Nat := 1 <<< 41

def CONFORMING : Nat := 1 <<< 42

def EXECUTABLE : Nat := 1 <<< 43

def USER_SEGMENT : Nat := 1 <<< 44

def DPL_RING_3 : Nat := 3 <<< 45

def PRESENT : Nat := 1 <<< 47

def AVAILABLE : Nat := 1 <<< 52

def LONG_MODE : Nat := 1 <<< 53

def DEFAULT_SIZE : Nat := 1 <<< 54

def GRANULARITY : Nat := 1 <<< 55

def LIMIT_0_15 : Nat := 0xFFFF

def LIMIT_16_19 : Nat := 0xF <<< 48

def BASE_0_23 : Nat := 0xFFFFFF <<< 16

def BASE_24_31 : Nat := 0xFF <<< 56

def COMMON : Nat :=
  USER_SEGMENT ||| PRESENT ||| WRITABLE ||| ACCESSED ||| LIMIT_0_15 |||
    LIMIT_16_19 ||| BASE_0_23 ||| BASE_24_31 ||| GRANULARITY

def KERNEL_CODE : Nat := COMMON ||| LONG_MODE ||| EXECUTABLE

def KERNEL_DATA : Nat := COMMON ||| DEFAULT_SIZE

def USER_CODE : Nat := KERNEL_CODE ||| DPL_RING_3

def USER_DATA : Nat := KERNEL_DATA ||| DPL_RING_3

end DescriptorFlags

/-! ## Descriptor encoders (`impl Descriptor`) -/

/-- Rust `Descriptor::kernel_code_segment()`. -/
def Descriptor.kernel_code_segment : Descriptor :=
  .UserSegment DescriptorFlags.KERNEL_CODE

/-- Rust `Descriptor::kernel_data_segment()`. -/
def Descriptor.kernel_data_segment : Descriptor :=
  .UserSegment DescriptorFlags.KERNEL_DATA

/-- Rust `Descriptor::user_code_segment()`. -/
def Descriptor.user_code_segment : Descriptor :=
  .UserSegment DescriptorFlags.USER_CODE

/-- Rust `Descriptor::user_data_segment()`. -/
def Descriptor.user_data_segment : Descriptor :=
  .UserSegment DescriptorFlags.USER_DATA

/-- Low quadword built by `Descriptor::task_state_segment`, with `ptr` the
TSS's address (`tss as *const _ as u64`) and `tssSize` the value of
`size_of::<TaskStateSegment>()` (the `TaskStateSegment` type lives in the
sibling `tss` module; its size enters this function only as this one
constant, so it is kept as a parameter). -/
def tssDescriptorLow (ptr tssSize : Nat) : Nat :=
  let low := DescriptorFlags.PRESENT
  let low := setBits low 16 40 (getBits ptr 0 24)
  let low := setBits low 56 64 (getBits ptr 24 32)
  let low := setBits low 0 16 (tssSize - 1)
  let low := setBits low 40 44 0b1001
  low

/-- High quadword built by `Descriptor::task_state_segment`. -/
def tssDescriptorHigh (ptr : Nat) : Nat :=
  setBits 0 0 32 (getBits ptr 32 64)

/-- Rust `Descriptor::task_state_segment(tss)`: a `SystemSegment` whose low
quadword carries limit, base bits 0..32, present and type fields, and whose
high quadword carries base bits 32..64. -/
def Descriptor.task_state_segment (ptr tssSize : Nat) : Descriptor :=
  .SystemSegment (tssDescriptorLow ptr tssSize) (tssDescriptorHigh ptr)

/-! ## The reference table (`lazy_static! GDT`) and `init()` -/

/-- The build of the static `GDT` (capacity `MAX = 8`, the default):
kernel code, kernel data, user code, user data, then the TSS descriptor. -/
def buildGDT (ptr tssSize : Nat) : PushResult :=
  (((((PushResult.ok (GlobalDescriptorTable.empty 8)).push
      Descriptor.kernel_code_segment).push
      Descriptor.kernel_data_segment).push
      Descriptor.user_code_segment).push
      Descriptor.user_data_segment).push
      (Descriptor.task_state_segment ptr tssSize)

/-- Tables reachable from `empty MAX` by successful pushes (a `lazy_static`
build block is exactly such a sequence). -/
inductive Reachable (MAX : Nat) : GlobalDescriptorTable → Prop
  | empty : Reachable MAX (GlobalDescriptorTable.empty MAX)
  | push (g g2 : GlobalDescriptorTable) (d : Descriptor) :
      Reachable MAX g → g.push d = .ok g2 → Reachable MAX g2

/-! ## The `init()` instruction sequence

`init()` is inline assembly; we embed it as the trace of architectural
actions it issues, in program order: the `lgdt` of `GDT.register()`, the
far return (`push 0x08; lea; push; retfq`) that reloads `cs` with selector
`0x08`, the block of `mov`s loading `es, ss, ds, fs, gs` with `0x10`, and
the `ltr` with `0x28`.  The `lazy_static` build of `GDT` happens on the
first dereference, before the `lgdt`. -/

/-- Data-style segment registers reloaded by `init()`. -/
inductive SegReg where
  | es
  | ss
  | ds
  | fs
  | gs
deriving DecidableEq, Repr

/-- One architectural action of `init()`. -/
inductive InitStep where
  | buildTable (g : GlobalDescriptorTable)
  | loadGDTR (r : DescriptorTableRegister)
  | farReturnCS (selector : Nat)
  | reloadDataSegs (loads : List (SegReg × Nat))
  | loadTR (selector : Nat)
deriving DecidableEq, Repr

/-- The action trace of `init()` (lines 199–225 of the source), with `base`
the address of the static `GDT`'s backing array, `ptr` the TSS address and
`tssSize` the value of `size_of::<TaskStateSegment>()`. -/
def initTrace (base ptr tssSize : Nat) : List InitStep :=
  let gdt := (buildGDT ptr tssSize).state
  [.buildTable gdt,
   .loadGDTR (gdt.register base),
   .farReturnCS 0x08,
   .reloadDataSegs [(.es, 0x10), (.ss, 0x10), (.ds, 0x10), (.fs, 0x10), (.gs, 0x10)],
   .loadTR 0x28]

/-- Modelled from the spec: the activation state machine `Uninitialized →
TableBuilt → TableRegisterLoaded → CodeSegmentReloaded →
DataSegmentsReloaded → TaskRegisterLoaded` of §4.4. -/
inductive InitState where
  | Uninitialized
  | TableBuilt
  | TableRegisterLoaded
  | CodeSegmentReloaded
  | DataSegmentsReloaded
  | TaskRegisterLoaded
deriving DecidableEq, Repr

/-- Modelled from the spec: the transitions of the §4.4 state machine.  Each
stage accepts exactly the next required action (with the spec's selector
values: code `0x08`, data `0x10` into all five data-style registers, TSS
`0x28`); any other action is refused (`none`), so a run that completes
has skipped and reordered nothing. -/
def stepInit : InitState → InitStep → Option InitState
  | .Uninitialized, .buildTable _ => some .TableBuilt
  | .TableBuilt, .loadGDTR _ => some .TableRegisterLoaded
  | .TableRegisterLoaded, .farReturnCS sel =>
    if sel = 0x08 then some .CodeSegmentReloaded else none
  | .CodeSegmentReloaded, .reloadDataSegs loads =>
    if loads = [(.es, 0x10), (.ss, 0x10), (.ds, 0x10), (.fs, 0x10), (.gs, 0x10)]
    then some .DataSegmentsReloaded else none
  | .DataSegmentsReloaded, .loadTR sel =>
    if sel = 0x28 then some .TaskRegisterLoaded else none
  | _, _ => none

/-- Run the state machine over an action trace; `none` as soon as an action
is not the one the current stage requires. -/
def runInit : InitState → List InitStep → Option InitState
  | s, [] => some s
  | s, step :: rest =>
    match stepInit s step with
    | some s2 => runInit s2 rest
    | none => none

/-! ## Claim-side presets for the segment encoders

These follow the wording of the spec ("common bits: user-segment, present,
writable, accessed, full limit, full base, granularity; code adds
long-mode + executable; user variants add privilege-level-3 bits") and are
to be compared with the presets the source actually builds. -/

/-- The spec's claimed common bits: user-segment, present, writable,
accessed, full limit (bits 0..16 and 48..52), full base (bits 16..40 and
56..64), granularity — and nothing else. -/
def specCommonBits : Nat :=
  1 <<< 44 ||| 1 <<< 47 ||| 1 <<< 41 ||| 1 <<< 40 ||| 0xFFFF |||
    0xF <<< 48 ||| 0xFFFFFF <<< 16 ||| 0xFF <<< 56 ||| 1 <<< 55

/-- The spec's claimed kernel-code bits: common plus long-mode (bit 53)
plus executable (bit 43). -/
def specKernelCodeBits : Nat := specCommonBits ||| 1 <<< 53 ||| 1 <<< 43

/-- The spec's claimed kernel-data bits: exactly the common bits (the spec
lists nothing more for the data variants). -/
def specKernelDataBits : Nat := specCommonBits

/-- The spec's claimed user-code bits: kernel-code plus the two
privilege-level-3 bits (bits 45 and 46). -/
def specUserCodeBits : Nat := specKernelCodeBits ||| 3 <<< 45

/-- The spec's claimed user-data bits: kernel-data plus the two
privilege-level-3 bits. -/
def specUserDataBits : Nat := specKernelDataBits ||| 3 <<< 45

/-! ## Helper lemmas -/

theorem writeEntry_ok (g : GlobalDescriptorTable) (v : Nat)
    (g2 : GlobalDescriptorTable) (h : writeEntry g v = .ok g2) :
    g.len < g.table.length ∧ g2.table = g.table.set g.len v ∧
      g2.len = g.len + 1 := by
  unfold writeEntry at h
  split at h
  · cases h
    exact ⟨by assumption, rfl, rfl⟩
  · cases h

theorem push_ok_eq (p : PushResult) (d : Descriptor) (h : p.isOk = true) :
    p.push d = p.state.push d := by
  cases p with
  | ok g => rfl
  | aborted g => exact Bool.noConfusion h

theorem pushUser_ok (g : GlobalDescriptorTable) (v : Nat)
    (h : g.len + 1 ≤ g.table.length) :
    (g.push (.UserSegment v)).isOk = true ∧
    (g.push (.UserSegment v)).state.len = g.len + 1 ∧
    (g.push (.UserSegment v)).state.table.length = g.table.length ∧
    (g.push (.UserSegment v)).state.table[g.len]? = some v ∧
    ∀ i, i ≠ g.len →
      (g.push (.UserSegment v)).state.table[i]? = g.table[i]? := by
  simp only [GlobalDescriptorTable.push, writeEntry,
    if_pos (by omega : g.len < g.table.length)]
  refine ⟨rfl, rfl, by simp [PushResult.state], ?_, ?_⟩
  · simp [PushResult.state, List.getElem?_set]
    omega
  · intro i hi
    simp only [PushResult.state, List.getElem?_set]
    rw [if_neg (by omega)]

theorem pushSys_ok (g : GlobalDescriptorTable) (lo hi : Nat)
    (h : g.len + 2 ≤ g.table.length) :
    (g.push (.SystemSegment lo hi)).isOk = true ∧
    (g.push (.SystemSegment lo hi)).state.len = g.len + 2 ∧
    (g.push (.SystemSegment lo hi)).state.table.length = g.table.length ∧
    (g.push (.SystemSegment lo hi)).state.table[g.len]? = some lo ∧
    (g.push (.SystemSegment lo hi)).state.table[g.len + 1]? = some hi ∧
    ∀ i, i ≠ g.len → i ≠ g.len + 1 →
      (g.push (.SystemSegment lo hi)).state.table[i]? = g.table[i]? := by
  simp only [GlobalDescriptorTable.push, writeEntry,
    if_pos (by omega : g.len < g.table.length)]
  simp only [List.length_set, if_pos (by omega : g.len + 1 < g.table.length)]
  refine ⟨rfl, rfl, by simp [PushResult.state], ?_, ?_, ?_⟩
  · simp [PushResult.state, List.getElem?_set]
    omega
  · simp [PushResult.state, List.getElem?_set]
    omega
  · intro i h1 h2
    simp only [PushResult.state, List.getElem?_set]
    rw [if_neg (by omega), if_neg (by omega)]

theorem pushUser_abort (g : GlobalDescriptorTable) (v : Nat)
    (h : g.table.length ≤ g.len) :
    g.push (.UserSegment v) = .aborted g := by
  simp only [GlobalDescriptorTable.push, writeEntry]
  rw [if_neg (by omega)]

theorem pushSys_abort_mid (g : GlobalDescriptorTable) (lo hi : Nat)
    (h : g.len + 1 = g.table.length) :
    g.push (.SystemSegment lo hi) =
      .aborted { table := g.table.set g.len lo, len := g.len + 1 } := by
  simp only [GlobalDescriptorTable.push, writeEntry,
    if_pos (by omega : g.len < g.table.length)]
  simp only [List.length_set]
  rw [if_neg (by omega)]

theorem pushSys_abort_empty (g : GlobalDescriptorTable) (lo hi : Nat)
    (h : g.table.length ≤ g.len) :
    g.push (.SystemSegment lo hi) = .aborted g := by
  simp only [GlobalDescriptorTable.push, writeEntry]
  rw [if_neg (by omega)]

theorem tss_low_closed (ptr S : Nat) (hS1 : 1 ≤ S) (hS2 : S ≤ 2 ^ 16) :
    tssDescriptorLow ptr S =
      (S - 1) + ptr % 2 ^ 24 * 2 ^ 16 + 9 * 2 ^ 40 + 2 ^ 47 +
        ptr / 2 ^ 24 % 2 ^ 8 * 2 ^ 56 := by
  simp only [tssDescriptorLow, setBits, getBits, DescriptorFlags.PRESENT]
  norm_num
  omega

theorem reachable_inv (MAX : Nat) (g : GlobalDescriptorTable) (hM : 1 ≤ MAX)
    (h : Reachable MAX g) :
    1 ≤ g.len ∧ g.table.length = MAX ∧ g.table[0]? = some 0 := by
  induction h with
  | empty =>
    refine ⟨Nat.le_refl 1, by simp [GlobalDescriptorTable.empty], ?_⟩
    show (List.replicate MAX 0)[0]? = some 0
    rw [List.getElem?_replicate, if_pos (by omega)]
  | push g g2 d hr hok ih =>
    obtain ⟨ih1, ih2, ih3⟩ := ih
    cases d with
    | UserSegment v =>
      obtain ⟨hb, ht, hl⟩ := writeEntry_ok g v g2 hok
      refine ⟨by omega, by simp [ht, ih2], ?_⟩
      rw [ht, List.getElem?_set, if_neg (by omega)]
      exact ih3
    | SystemSegment lo hi =>
      simp only [GlobalDescriptorTable.push] at hok
      cases hw : writeEntry g lo with
      | ok g1 =>
        rw [hw] at hok
        obtain ⟨hb1, ht1, hl1⟩ := writeEntry_ok g lo g1 hw
        obtain ⟨hb2, ht2, hl2⟩ := writeEntry_ok g1 hi g2 hok
        refine ⟨by omega, by simp [ht2, ht1, ih2], ?_⟩
        rw [ht2, List.getElem?_set, if_neg (by omega), ht1,
          List.getElem?_set, if_neg (by omega)]
        exact ih3
      | aborted g1 =>
        rw [hw] at hok
        cases hok

theorem buildGDT_spec (ptr S : Nat) :
    (buildGDT ptr S).isOk = true ∧
    (buildGDT ptr S).state.len = 7 ∧
    (buildGDT ptr S).state.table.length = 8 ∧
    (buildGDT ptr S).state.table[1]? = some DescriptorFlags.KERNEL_CODE ∧
    (buildGDT ptr S).state.table[2]? = some DescriptorFlags.KERNEL_DATA ∧
    (buildGDT ptr S).state.table[3]? = some DescriptorFlags.USER_CODE ∧
    (buildGDT ptr S).state.table[4]? = some DescriptorFlags.USER_DATA ∧
    (buildGDT ptr S).state.table[5]? = some (tssDescriptorLow ptr S) ∧
    (buildGDT ptr S).state.table[6]? = some (tssDescriptorHigh ptr) ∧
    (buildGDT ptr S).state.table[0]? = some 0 := by
  have h0len : (GlobalDescriptorTable.empty 8).len = 1 := rfl
  have h0tab : (GlobalDescriptorTable.empty 8).table.length = 8 := by decide
  have h0zero : (GlobalDescriptorTable.empty 8).table[0]? = some 0 := by decide
  obtain ⟨s1ok, s1len, s1tab, s1get, s1pres⟩ :=
    pushUser_ok (GlobalDescriptorTable.empty 8)
      DescriptorFlags.KERNEL_CODE (by omega)
  set g1 := ((GlobalDescriptorTable.empty 8).push
    (.UserSegment DescriptorFlags.KERNEL_CODE)).state with hg1
  obtain ⟨s2ok, s2len, s2tab, s2get, s2pres⟩ :=
    pushUser_ok g1 DescriptorFlags.KERNEL_DATA (by omega)
  set g2 := (g1.push (.UserSegment DescriptorFlags.KERNEL_DATA)).state with hg2
  obtain ⟨s3ok, s3len, s3tab, s3get, s3pres⟩ :=
    pushUser_ok g2 DescriptorFlags.USER_CODE (by omega)
  set g3 := (g2.push (.UserSegment DescriptorFlags.USER_CODE)).state with hg3
  obtain ⟨s4ok, s4len, s4tab, s4get, s4pres⟩ :=
    pushUser_ok g3 DescriptorFlags.USER_DATA (by omega)
  set g4 := (g3.push (.UserSegment DescriptorFlags.USER_DATA)).state with hg4
  obtain ⟨s5ok, s5len, s5tab, s5lo, s5hi, s5pres⟩ :=
    pushSys_ok g4 (tssDescriptorLow ptr S) (tssDescriptorHigh ptr) (by omega)
  have hchain : buildGDT ptr S =
      g4.push (.SystemSegment (tssDescriptorLow ptr S)
        (tssDescriptorHigh ptr)) := by
    show ((((((PushResult.ok (GlobalDescriptorTable.empty 8)).push
        (.UserSegment DescriptorFlags.KERNEL_CODE)).push
        (.UserSegment DescriptorFlags.KERNEL_DATA)).push
        (.UserSegment DescriptorFlags.USER_CODE)).push
        (.UserSegment DescriptorFlags.USER_DATA)).push
        (.SystemSegment (tssDescriptorLow ptr S) (tssDescriptorHigh ptr))) = _
    rw [show (PushResult.ok (GlobalDescriptorTable.empty 8)).push
        (.UserSegment DescriptorFlags.KERNEL_CODE) =
        (GlobalDescriptorTable.empty 8).push
          (.UserSegment DescriptorFlags.KERNEL_CODE) from rfl,
      push_ok_eq _ _ s1ok, push_ok_eq _ _ s2ok, push_ok_eq _ _ s3ok,
      push_ok_eq _ _ s4ok]
  rw [hchain]
  refine ⟨s5ok, by omega, by omega, ?_, ?_, ?_, ?_, ?_, ?_, ?_⟩
  · rw [s5pres 1 (by omega) (by omega), s4pres 1 (by omega),
      s3pres 1 (by omega), s2pres 1 (by omega)]
    rw [h0len] at s1get
    exact s1get
  · rw [s5pres 2 (by omega) (by omega), s4pres 2 (by omega),
      s3pres 2 (by omega)]
    rw [s1len, h0len] at s2get
    exact s2get
  · rw [s5pres 3 (by omega) (by omega), s4pres 3 (by omega)]
    rw [s2len, s1len, h0len] at s3get
    exact s3get
  · rw [s5pres 4 (by omega) (by omega)]
    rw [s3len, s2len, s1len, h0len] at s4get
    exact s4get
  · have hl4 : g4.len = 5 := by omega
    rw [hl4] at s5lo
    exact s5lo
  · have hl4 : g4.len = 5 := by omega
    rw [hl4] at s5hi
    exact s5hi
  · rw [s5pres 0 (by omega) (by omega), s4pres 0 (by omega),
      s3pres 0 (by omega), s2pres 0 (by omega), s1pres 0 (by omega)]
    exact h0zero

/-! ## Claim theorems -/

/-- Claim C1: `push` appends a `UserSegment` as exactly one entry at index
`len` (advancing `len` by 1) and a `SystemSegment` as two consecutive
entries, low at `len`, high at `len + 1` (advancing `len` by 2), preserving
every other entry; pushing three `UserSegment`s `a, b, c` onto `empty()`
yields length 4 with `a, b, c` at indices 1, 2, 3 and nothing removed or
reordered. -/
theorem push_appends_entries (g : GlobalDescriptorTable) (v lo hi a b c : Nat) :
    (g.len + 1 ≤ g.table.length →
      (g.push (.UserSegment v)).isOk = true ∧
      (g.push (.UserSegment v)).state.len = g.len + 1 ∧
      (g.push (.UserSegment v)).state.table[g.len]? = some v ∧
      ∀ i, i ≠ g.len →
        (g.push (.UserSegment v)).state.table[i]? = g.table[i]?) ∧
    (g.len + 2 ≤ g.table.length →
      (g.push (.SystemSegment lo hi)).isOk = true ∧
      (g.push (.SystemSegment lo hi)).state.len = g.len + 2 ∧
      (g.push (.SystemSegment lo hi)).state.table[g.len]? = some lo ∧
      (g.push (.SystemSegment lo hi)).state.table[g.len + 1]? = some hi ∧
      ∀ i, i ≠ g.len → i ≠ g.len + 1 →
        (g.push (.SystemSegment lo hi)).state.table[i]? = g.table[i]?) ∧
    (((PushResult.ok (GlobalDescriptorTable.empty 8)).push
        (.UserSegment a)).push (.UserSegment b)).push (.UserSegment c) =
      .ok { table := [0, a, b, c, 0, 0, 0, 0], len := 4 } := by
  refine ⟨fun h => ?_, fun h => ?_, rfl⟩
  · obtain ⟨u1, u2, u3, u4, u5⟩ := pushUser_ok g v h
    exact ⟨u1, u2, u4, u5⟩
  · obtain ⟨u1, u2, u3, u4, u5, u6⟩ := pushSys_ok g lo hi h
    exact ⟨u1, u2, u4, u5, u6⟩

/-- Witness for C1 at the empty default-capacity table. -/
theorem push_appends_entries_witness :
    (GlobalDescriptorTable.empty 8).len + 1 ≤
      (GlobalDescriptorTable.empty 8).table.length ∧
    (GlobalDescriptorTable.empty 8).len + 2 ≤
      (GlobalDescriptorTable.empty 8).table.length ∧
    ((GlobalDescriptorTable.empty 8).push (.UserSegment 5)).isOk = true ∧
    ((GlobalDescriptorTable.empty 8).push (.SystemSegment 6 7)).state.len =
      (GlobalDescriptorTable.empty 8).len + 2 := by
  refine ⟨by decide, by decide, ?_, ?_⟩
  · exact ((push_appends_entries (GlobalDescriptorTable.empty 8)
      5 6 7 1 2 3).1 (by decide)).1
  · exact ((push_appends_entries (GlobalDescriptorTable.empty 8)
      5 6 7 1 2 3).2.1 (by decide)).2.1

/-- Claim C2: `task_state_segment` encodes a `SystemSegment` whose low
quadword carries the TSS address bits 0..24 in bits 16..40 and bits 24..32
in bits 56..64, whose high quadword carries address bits 32..64 in its low
32 bits (so the base reconstructs exactly to the address), with limit field
`size − 1`, present bit set, type nibble `0b1001`, and all remaining high
quadword bits zero. -/
theorem tss_descriptor_encoding (A S : Nat) (hA : A < 2 ^ 64)
    (hS1 : 1 ≤ S) (hS2 : S ≤ 2 ^ 16) :
    Descriptor.task_state_segment A S =
      .SystemSegment (tssDescriptorLow A S) (tssDescriptorHigh A) ∧
    getBits (tssDescriptorLow A S) 16 40 = getBits A 0 24 ∧
    getBits (tssDescriptorLow A S) 56 64 = getBits A 24 32 ∧
    getBits (tssDescriptorHigh A) 0 32 = getBits A 32 64 ∧
    getBits (tssDescriptorLow A S) 16 40 +
        getBits (tssDescriptorLow A S) 56 64 * 2 ^ 24 +
        getBits (tssDescriptorHigh A) 0 32 * 2 ^ 32 = A ∧
    getBits (tssDescriptorLow A S) 0 16 = S - 1 ∧
    getBits (tssDescriptorLow A S) 47 48 = 1 ∧
    getBits (tssDescriptorLow A S) 40 44 = 9 ∧
    getBits (tssDescriptorHigh A) 32 64 = 0 := by
  refine ⟨rfl, ?_⟩
  rw [tss_low_closed A S hS1 hS2]
  simp only [tssDescriptorHigh, setBits, getBits]
  norm_num
  omega

/-- Witness for C2 at address `0x123456789ABC` and the real
`size_of::<TaskStateSegment>() = 104`. -/
theorem tss_descriptor_encoding_witness :
    (0x123456789ABC : Nat) < 2 ^ 64 ∧ (1 : Nat) ≤ 104 ∧ (104 : Nat) ≤ 2 ^ 16 ∧
    (getBits (tssDescriptorLow 0x123456789ABC 104) 16 40 =
        getBits 0x123456789ABC 0 24 ∧
      getBits (tssDescriptorLow 0x123456789ABC 104) 0 16 = 104 - 1 ∧
      getBits (tssDescriptorLow 0x123456789ABC 104) 40 44 = 9) := by
  refine ⟨by decide, by decide, by decide, ?_⟩
  have h := tss_descriptor_encoding 0x123456789ABC 104
    (by decide) (by decide) (by decide)
  exact ⟨h.2.1, h.2.2.2.2.2.1, h.2.2.2.2.2.2.2.1⟩

/-- Claim C3: building the reference table (kernel code, kernel data, user
code, user data, TSS) from `empty()` places each descriptor's first entry
at byte offsets 0x08, 0x10, 0x18, 0x20, 0x28 (entry index = offset / 8,
each entry 8 bytes wide). -/
theorem selector_offsets (ptr S : Nat) :
    (buildGDT ptr S).isOk = true ∧
    (buildGDT ptr S).state.len = 7 ∧
    (buildGDT ptr S).state.table[0x08 / 8]? =
      some DescriptorFlags.KERNEL_CODE ∧
    (buildGDT ptr S).state.table[0x10 / 8]? =
      some DescriptorFlags.KERNEL_DATA ∧
    (buildGDT ptr S).state.table[0x18 / 8]? =
      some DescriptorFlags.USER_CODE ∧
    (buildGDT ptr S).state.table[0x20 / 8]? =
      some DescriptorFlags.USER_DATA ∧
    (buildGDT ptr S).state.table[0x28 / 8]? =
      some (tssDescriptorLow ptr S) ∧
    (buildGDT ptr S).state.table[0x28 / 8 + 1]? =
      some (tssDescriptorHigh ptr) := by
  obtain ⟨h1, h2, h3, h4, h5, h6, h7, h8, h9, h10⟩ := buildGDT_spec ptr S
  exact ⟨h1, h2, h4, h5, h6, h7, h8, h9⟩

/-- Claim C4: `register()` returns the table's base address and size
`len × 8 − 1`; the reference table (7 occupied entries) yields size 55. -/
theorem register_size_address (g : GlobalDescriptorTable) (base ptr S : Nat)
    (h1 : 1 ≤ g.len) (h2 : g.len * 8 ≤ 2 ^ 16) :
    (g.register base).address = base ∧
    (g.register base).size = g.len * 8 - 1 ∧
    ((buildGDT ptr S).state.register base).address = base ∧
    ((buildGDT ptr S).state.register base).size = 55 := by
  refine ⟨rfl, ?_, rfl, ?_⟩
  · show (g.len * 8 - 1) % 2 ^ 16 = g.len * 8 - 1
    omega
  · show ((buildGDT ptr S).state.len * 8 - 1) % 2 ^ 16 = 55
    rw [(buildGDT_spec ptr S).2.1]
    norm_num

/-- Witness for C4 at a concrete one-entry table and the reference build. -/
theorem register_size_address_witness :
    1 ≤ ({ table := [0], len := 1 } : GlobalDescriptorTable).len ∧
    ({ table := [0], len := 1 } : GlobalDescriptorTable).len * 8 ≤ 2 ^ 16 ∧
    (({ table := [0], len := 1 } : GlobalDescriptorTable).register
      0x1000).address = 0x1000 ∧
    (({ table := [0], len := 1 } : GlobalDescriptorTable).register
        0x1000).size =
      ({ table := [0], len := 1 } : GlobalDescriptorTable).len * 8 - 1 ∧
    ((buildGDT 0 104).state.register 0x1000).address = 0x1000 ∧
    ((buildGDT 0 104).state.register 0x1000).size = 55 := by
  have h := register_size_address { table := [0], len := 1 } 0x1000 0 104
    (by decide) (by decide)
  exact ⟨by decide, by decide, h.1, h.2.1, h.2.2.1, h.2.2.2⟩

/-- Claim C5: decoding the bit fields of `kernel_code_segment()` yields
privilege level (bits 45..47) 0 with the executable (43), long-mode (53),
present (47) and user-segment (44) bits set; `user_code_segment()` yields
the same with privilege level 3. -/
theorem code_segment_flags_roundtrip :
    Descriptor.kernel_code_segment =
      .UserSegment DescriptorFlags.KERNEL_CODE ∧
    getBits DescriptorFlags.KERNEL_CODE 45 47 = 0 ∧
    getBits DescriptorFlags.KERNEL_CODE 43 44 = 1 ∧
    getBits DescriptorFlags.KERNEL_CODE 53 54 = 1 ∧
    getBits DescriptorFlags.KERNEL_CODE 47 48 = 1 ∧
    getBits DescriptorFlags.KERNEL_CODE 44 45 = 1 ∧
    Descriptor.user_code_segment = .UserSegment DescriptorFlags.USER_CODE ∧
    getBits DescriptorFlags.USER_CODE 45 47 = 3 ∧
    getBits DescriptorFlags.USER_CODE 43 44 = 1 ∧
    getBits DescriptorFlags.USER_CODE 53 54 = 1 ∧
    getBits DescriptorFlags.USER_CODE 47 48 = 1 ∧
    getBits DescriptorFlags.USER_CODE 44 45 = 1 := by
  refine ⟨rfl, ?_, ?_, ?_, ?_, ?_, rfl, ?_, ?_, ?_, ?_, ?_⟩ <;> decide

/-- Counterexample to claim C6: the claim lists the data variants' bits as
exactly the common bits, but `kernel_data_segment()` additionally sets the
default-size bit (bit 54, `DEFAULT_SIZE`), which is not among the bits the
claim lists. -/
theorem data_segment_preset_counterexample :
    Descriptor.kernel_data_segment ≠
      Descriptor.UserSegment specKernelDataBits ∧
    Descriptor.user_data_segment ≠
      Descriptor.UserSegment specUserDataBits ∧
    getBits DescriptorFlags.KERNEL_DATA 54 55 = 1 ∧
    getBits specKernelDataBits 54 55 = 0 := by
  refine ⟨?_, ?_, ?_, ?_⟩ <;> decide

/-- Claim C6 as amended: each encoder returns a `UserSegment` with exactly
the stated OR of presets, except that the data variants add exactly the
default-size bit (bit 54) to the common bits; no other bits are set. -/
theorem segment_presets_exact_bits :
    Descriptor.kernel_code_segment =
      .UserSegment specKernelCodeBits ∧
    Descriptor.kernel_data_segment =
      .UserSegment (specKernelDataBits ||| 1 <<< 54) ∧
    Descriptor.user_code_segment = .UserSegment specUserCodeBits ∧
    Descriptor.user_data_segment =
      .UserSegment (specUserDataBits ||| 1 <<< 54) := by
  refine ⟨?_, ?_, ?_, ?_⟩ <;> decide

/-- Claim C7: when the resulting length stays within capacity a push
succeeds (every write in bounds), and when the precondition is violated the
push aborts construction (index out-of-bounds panic) instead of returning
an error value or silently truncating. -/
theorem push_capacity_precondition (g : GlobalDescriptorTable)
    (v lo hi : Nat) :
    (g.len + 1 ≤ g.table.length →
      (g.push (.UserSegment v)).isOk = true) ∧
    (g.len + 2 ≤ g.table.length →
      (g.push (.SystemSegment lo hi)).isOk = true) ∧
    (g.table.length < g.len + 1 →
      g.push (.UserSegment v) = .aborted g) ∧
    (g.table.length < g.len + 2 →
      (g.push (.SystemSegment lo hi)).isOk = false) := by
  refine ⟨fun h => (pushUser_ok g v h).1, fun h => (pushSys_ok g lo hi h).1,
    fun h => pushUser_abort g v (by omega), fun h => ?_⟩
  rcases Nat.lt_or_ge g.len g.table.length with hc | hc
  · rw [pushSys_abort_mid g lo hi (by omega)]
    rfl
  · rw [pushSys_abort_empty g lo hi (by omega)]
    rfl

/-- Witness for C7: a push within capacity succeeds, a push beyond capacity
aborts. -/
theorem push_capacity_precondition_witness :
    (GlobalDescriptorTable.empty 8).len + 1 ≤
      (GlobalDescriptorTable.empty 8).table.length ∧
    ({ table := [0], len := 1 } : GlobalDescriptorTable).table.length <
      ({ table := [0], len := 1 } : GlobalDescriptorTable).len + 1 ∧
    ((GlobalDescriptorTable.empty 8).push (.UserSegment 5)).isOk = true ∧
    ({ table := [0], len := 1 } : GlobalDescriptorTable).push
        (.UserSegment 5) =
      .aborted { table := [0], len := 1 } := by
  refine ⟨by decide, by decide, ?_, ?_⟩
  · exact (push_capacity_precondition
      (GlobalDescriptorTable.empty 8) 5 6 7).1 (by decide)
  · exact (push_capacity_precondition
      { table := [0], len := 1 } 5 6 7).2.2.1 (by decide)

/-- Claim C8: every table reachable from `empty()` by successful pushes
keeps the zero (null) descriptor at index 0 and a length of at least 1;
`empty()` itself has all slots zeroed and length exactly 1. -/
theorem null_descriptor_invariant (MAX : Nat) (g : GlobalDescriptorTable)
    (hM : 1 ≤ MAX) (h : Reachable MAX g) :
    g.table[0]? = some 0 ∧ 1 ≤ g.len ∧
    (GlobalDescriptorTable.empty MAX).table = List.replicate MAX 0 ∧
    (GlobalDescriptorTable.empty MAX).len = 1 := by
  obtain ⟨i1, i2, i3⟩ := reachable_inv MAX g hM h
  exact ⟨i3, i1, rfl, rfl⟩

/-- Witness for C8 at a table reached by one push. -/
theorem null_descriptor_invariant_witness :
    (1 : Nat) ≤ 8 ∧
    ({ table := [0, 5, 0, 0, 0, 0, 0, 0], len := 2 } :
      GlobalDescriptorTable).table[0]? = some 0 ∧
    1 ≤ ({ table := [0, 5, 0, 0, 0, 0, 0, 0], len := 2 } :
      GlobalDescriptorTable).len := by
  have h := null_descriptor_invariant 8
    { table := [0, 5, 0, 0, 0, 0, 0, 0], len := 2 } (by decide)
    (Reachable.push _ _ (.UserSegment 5) Reachable.empty (by decide))
  exact ⟨by decide, h.1, h.2.1⟩

/-- Claim C9: `init()` performs, in strict order with nothing skipped:
load of the table register with `register()`'s descriptor, code-segment
reload via far return with selector 0x08, reload of `es, ss, ds, fs, gs`
with 0x10, and task-register load with 0x28 — running the spec's state
machine from `Uninitialized` through every stage to `TaskRegisterLoaded`
with no failure path. -/
theorem init_sequence_order (base ptr S : Nat) :
    runInit .Uninitialized (initTrace base ptr S) =
      some .TaskRegisterLoaded ∧
    initTrace base ptr S =
      [.buildTable (buildGDT ptr S).state,
       .loadGDTR ((buildGDT ptr S).state.register base),
       .farReturnCS 0x08,
       .reloadDataSegs
         [(.es, 0x10), (.ss, 0x10), (.ds, 0x10), (.fs, 0x10), (.gs, 0x10)],
       .loadTR 0x28] ∧
    runInit .Uninitialized ((initTrace base ptr S).take 1) =
      some .TableBuilt ∧
    runInit .Uninitialized ((initTrace base ptr S).take 2) =
      some .TableRegisterLoaded ∧
    runInit .Uninitialized ((initTrace base ptr S).take 3) =
      some .CodeSegmentReloaded ∧
    runInit .Uninitialized ((initTrace base ptr S).take 4) =
      some .DataSegmentsReloaded :=
  ⟨rfl, rfl, rfl, rfl, rfl, rfl⟩

/-- Claim C10: on a table with exactly one free slot, pushing a
`SystemSegment` writes the low quadword into the last slot and increments
the length to capacity before the abort on the second write: the state at
the abort is mutated, not the original. -/
theorem system_segment_push_not_atomic (g : GlobalDescriptorTable)
    (lo hi : Nat) (h : g.len + 1 = g.table.length) :
    g.push (.SystemSegment lo hi) =
      .aborted { table := g.table.set g.len lo, len := g.len + 1 } ∧
    (g.push (.SystemSegment lo hi)).isOk = false ∧
    (g.push (.SystemSegment lo hi)).state.len = g.table.length ∧
    (g.push (.SystemSegment lo hi)).state.table[g.len]? = some lo := by
  have hp := pushSys_abort_mid g lo hi h
  refine ⟨hp, by rw [hp]; rfl, by rw [hp]; exact h, ?_⟩
  rw [hp]
  simp only [PushResult.state, List.getElem?_set]
  rw [if_pos trivial, if_pos (by omega)]

/-- Witness for C10 at a capacity-2 table holding only the null entry. -/
theorem system_segment_push_not_atomic_witness :
    (GlobalDescriptorTable.empty 2).len + 1 =
      (GlobalDescriptorTable.empty 2).table.length ∧
    (GlobalDescriptorTable.empty 2).push (.SystemSegment 6 7) =
      .aborted { table := [0, 6], len := 2 } := by
  refine ⟨by decide, ?_⟩
  exact (system_segment_push_not_atomic
    (GlobalDescriptorTable.empty 2) 6 7 (by decide)).1

end Gdt
